import Mathlib

/-!
Verification development for the bearer-token-authenticated MCP session
manager (tecracer agentcore-mcp-authentication).

The Python sources are shallowly embedded as executable Lean functions:

* `Json` and `json_loads` model the subset of the behaviour of the Python
  standard library function json.loads that the repository exercises
  (objects, arrays, strings with escapes, integer and decimal numbers,
  the non-standard constants NaN and Infinity accepted by default).
  JSON numbers are represented exactly as rationals; the Python
  implementation parses decimal literals into binary floats, which can
  differ from the exact rational in the far decimals, a difference no
  theorem below depends on.  Lone surrogate escapes, which Python keeps
  in its strings, are mapped to U+FFFD since Lean strings hold scalar
  values only; no theorem below depends on string contents produced
  from surrogate escapes.
* `b64decodePy` models base64.b64decode with its default arguments
  (standard alphabet, validate := false), following the CPython
  binascii.a2b_base64 non-strict state machine: characters outside the
  alphabet are discarded, padding is checked as in CPython.
* `utf8Decode` models bytes.decode applied with the utf-8 codec
  (strict errors): overlong forms, surrogates and out-of-range
  sequences are rejected.
* `check_token_expiry` embeds the function of that name from
  03_blogpost_deploy_mcp/blogpost_invoke_mcp_tools_userCred.py.
  Timestamps are modelled as rationals (Python uses floats).  The
  datetime.fromtimestamp calls in its print statements raise for
  non-numeric or out-of-range arguments; the embedding guards those
  calls with `fromtimestampOK`, using the UTC range of datetime
  (local-timezone offsets shift the bounds by a few hours, far away
  from every value any theorem below touches).
* `get_bearer_token`, `create_agent` and `single_agent_mcp_bedrock`
  embed the module 04_blogpost_single_agent_mcp/blogpost_single_agent_mcp.py
  (the entrypoint is textually identical in
  user_authentication/04_single_agent_mcp/blogpost_single_agent_mcp_userCred.py).
  External collaborators (SSM, the identity provider, the MCP server,
  the Bedrock agent) are passed in as oracle values, and the network
  actions the code performs are recorded as an `Ev` trace.
-/

/-- JSON values as produced by the Python json.loads decoder.  Python
maps objects to dicts; here an object keeps its key-value pairs in
source order and lookups take the last binding, matching dict
construction where later duplicate keys overwrite earlier ones. -/
inductive Json where
  | null : Json
  | bool (b : Bool) : Json
  | num (q : ℚ) : Json
  | nan : Json
  | inf (neg : Bool) : Json
  | str (s : String) : Json
  | arr (elems : List Json) : Json
  | obj (fields : List (String × Json)) : Json

/-- JSON whitespace accepted by the Python decoder. -/
def isJsonWs (c : Char) : Bool :=
  c = ' ' || c = '\t' || c = '\n' || c = '\r'

/-- Drop leading JSON whitespace. -/
def skipWs : List Char → List Char
  | [] => []
  | c :: rest => if isJsonWs c then skipWs rest else c :: rest

/-- Value of a hexadecimal digit. -/
def hexVal (c : Char) : Option Nat :=
  if '0' ≤ c ∧ c ≤ '9' then some (c.toNat - '0'.toNat)
  else if 'a' ≤ c ∧ c ≤ 'f' then some (c.toNat - 'a'.toNat + 10)
  else if 'A' ≤ c ∧ c ≤ 'F' then some (c.toNat - 'A'.toNat + 10)
  else none

/-- Decimal digit test. -/
def isDigitCh (c : Char) : Bool := '0' ≤ c ∧ c ≤ '9'

/-- Split a list of characters into its leading decimal digits and the rest. -/
def takeDigits : List Char → List Char × List Char
  | [] => ([], [])
  | c :: rest =>
    if isDigitCh c then
      let (ds, r) := takeDigits rest
      (c :: ds, r)
    else ([], c :: rest)

/-- Natural number denoted by a list of decimal digits. -/
def digitsToNat (ds : List Char) : Nat :=
  ds.foldl (fun n c => n * 10 + (c.toNat - '0'.toNat)) 0

/-- A scalar-value character for a code point, with U+FFFD standing in
for the surrogate code points Python would keep in its strings. -/
def charFromCode (n : Nat) : Char :=
  if n < 0xd800 ∨ (0xdfff < n ∧ n < 0x110000) then
    Char.ofNat n
  else
    Char.ofNat 0xfffd

/-- Parse the body of a JSON string literal (the opening quote already
consumed), following the escape rules of the Python decoder in strict
mode: raw control characters below U+0020 are rejected, the short
escapes and the 4-hex-digit u escape are accepted, and a high-surrogate
escape immediately followed by a low-surrogate escape forms one
character. -/
def parseStringBody : Nat → List Char → List Char → Option (String × List Char)
  | 0, _, _ => none
  | _ + 1, [], _ => none
  | fuel + 1, c :: rest, acc =>
    if c = '"' then some (String.mk acc.reverse, rest)
    else if c = '\\' then
      match rest with
      | [] => none
      | e :: rest2 =>
        if e = '"' then parseStringBody fuel rest2 ('"' :: acc)
        else if e = '\\' then parseStringBody fuel rest2 ('\\' :: acc)
        else if e = '/' then parseStringBody fuel rest2 ('/' :: acc)
        else if e = 'b' then parseStringBody fuel rest2 ('\x08' :: acc)
        else if e = 'f' then parseStringBody fuel rest2 ('\x0c' :: acc)
        else if e = 'n' then parseStringBody fuel rest2 ('\n' :: acc)
        else if e = 'r' then parseStringBody fuel rest2 ('\r' :: acc)
        else if e = 't' then parseStringBody fuel rest2 ('\t' :: acc)
        else if e = 'u' then
          match rest2 with
          | h1 :: h2 :: h3 :: h4 :: rest3 =>
            match hexVal h1, hexVal h2, hexVal h3, hexVal h4 with
            | some a, some b, some c, some d =>
              let n := ((a * 16 + b) * 16 + c) * 16 + d
              if 0xd800 ≤ n ∧ n ≤ 0xdbff then
                match rest3 with
                | '\\' :: 'u' :: g1 :: g2 :: g3 :: g4 :: rest4 =>
                  match hexVal g1, hexVal g2, hexVal g3, hexVal g4 with
                  | some a2, some b2, some c2, some d2 =>
                    let m := ((a2 * 16 + b2) * 16 + c2) * 16 + d2
                    if 0xdc00 ≤ m ∧ m ≤ 0xdfff then
                      let cp := 0x10000 + (n - 0xd800) * 0x400 + (m - 0xdc00)
                      parseStringBody fuel rest4 (charFromCode cp :: acc)
                    else
                      parseStringBody fuel rest3 (charFromCode n :: acc)
                  | _, _, _, _ => parseStringBody fuel rest3 (charFromCode n :: acc)
                | _ => parseStringBody fuel rest3 (charFromCode n :: acc)
              else
                parseStringBody fuel rest3 (charFromCode n :: acc)
            | _, _, _, _ => none
          | _ => none
        else none
    else if c.toNat < 0x20 then none
    else parseStringBody fuel rest (c :: acc)

/-- The rational mant times ten to the e, built so that the kernel
can evaluate the non-negative-exponent case without rational
normalization. -/
def ratOfDecimal (mant : ℤ) (e : ℤ) : ℚ :=
  if 0 ≤ e then ((mant * 10 ^ e.toNat : ℤ) : ℚ)
  else (mant : ℚ) / ((10 ^ (-e).toNat : ℤ) : ℚ)

/-- Parse a JSON number literal following the grammar the Python
decoder uses: an optional minus, an integer part without leading
zeros, an optional fraction with at least one digit, an optional
exponent with at least one digit.  The exact rational value is
returned. -/
def parseNumber (cs : List Char) : Option (Json × List Char) :=
  let (neg, cs1) :=
    match cs with
    | '-' :: rest => (true, rest)
    | _ => (false, cs)
  let intPart : Option (List Char × List Char) :=
    match cs1 with
    | '0' :: rest => some (['0'], rest)
    | c :: _ =>
      if isDigitCh c ∧ c ≠ '0' then some (takeDigits cs1) else none
    | [] => none
  match intPart with
  | none => none
  | some (ids, cs2) =>
    let (fds, cs3) :=
      match cs2 with
      | '.' :: rest =>
        match rest with
        | c :: _ => if isDigitCh c then takeDigits rest else ([], cs2)
        | [] => ([], cs2)
      | _ => ([], cs2)
    let (eneg, eds, cs4) :=
      match cs3 with
      | e :: rest =>
        if e = 'e' ∨ e = 'E' then
          match rest with
          | '+' :: rest2 =>
            match rest2 with
            | c :: _ => if isDigitCh c then
                let (ds, r) := takeDigits rest2
                (false, ds, r)
              else (false, [], cs3)
            | [] => (false, [], cs3)
          | '-' :: rest2 =>
            match rest2 with
            | c :: _ => if isDigitCh c then
                let (ds, r) := takeDigits rest2
                (true, ds, r)
              else (false, [], cs3)
            | [] => (false, [], cs3)
          | c :: _ =>
            if isDigitCh c then
              let (ds, r) := takeDigits rest
              (false, ds, r)
            else (false, [], cs3)
          | [] => (false, [], cs3)
        else (false, [], cs3)
      | [] => (false, [], cs3)
    let mant : ℤ := (digitsToNat ids * 10 ^ fds.length + digitsToNat fds : ℕ)
    let e : ℤ := (if eneg then -(digitsToNat eds : ℤ) else (digitsToNat eds : ℤ)) - fds.length
    some (Json.num (ratOfDecimal (if neg then -mant else mant) e), cs4)

mutual

/-- Parse one JSON value (leading whitespace allowed), as the Python
decoder does at each position where it expects a value.  The
non-standard constants NaN, Infinity and -Infinity are accepted, as
they are by json.loads with default arguments. -/
def parseValue : Nat → List Char → Option (Json × List Char)
  | 0, _ => none
  | fuel + 1, cs =>
    match skipWs cs with
    | [] => none
    | '"' :: rest =>
      match parseStringBody (rest.length + 1) rest [] with
      | none => none
      | some (s, rest1) => some (Json.str s, rest1)
    | '{' :: rest =>
      match skipWs rest with
      | '}' :: rest2 => some (Json.obj [], rest2)
      | rest2 => parseObjItems fuel rest2 []
    | '[' :: rest =>
      match skipWs rest with
      | ']' :: rest2 => some (Json.arr [], rest2)
      | rest2 => parseArrItems fuel rest2 []
    | 't' :: 'r' :: 'u' :: 'e' :: rest => some (Json.bool true, rest)
    | 'f' :: 'a' :: 'l' :: 's' :: 'e' :: rest => some (Json.bool false, rest)
    | 'n' :: 'u' :: 'l' :: 'l' :: rest => some (Json.null, rest)
    | 'N' :: 'a' :: 'N' :: rest => some (Json.nan, rest)
    | 'I' :: 'n' :: 'f' :: 'i' :: 'n' :: 'i' :: 't' :: 'y' :: rest =>
      some (Json.inf false, rest)
    | '-' :: 'I' :: 'n' :: 'f' :: 'i' :: 'n' :: 'i' :: 't' :: 'y' :: rest =>
      some (Json.inf true, rest)
    | cs2 => parseNumber cs2

/-- Parse the members of a JSON object after the opening brace and any
whitespace, when the object is non-empty. -/
def parseObjItems : Nat → List Char → List (String × Json) →
    Option (Json × List Char)
  | 0, _, _ => none
  | fuel + 1, cs, acc =>
    match cs with
    | '"' :: rest =>
      match parseStringBody (rest.length + 1) rest [] with
      | none => none
      | some (key, rest1) =>
        match skipWs rest1 with
        | ':' :: rest2 =>
          match parseValue fuel rest2 with
          | none => none
          | some (v, rest3) =>
            match skipWs rest3 with
            | ',' :: rest4 => parseObjItems fuel (skipWs rest4) (acc ++ [(key, v)])
            | '}' :: rest4 => some (Json.obj (acc ++ [(key, v)]), rest4)
            | _ => none
        | _ => none
    | _ => none

/-- Parse the elements of a JSON array after the opening bracket and
any whitespace, when the array is non-empty. -/
def parseArrItems : Nat → List Char → List Json → Option (Json × List Char)
  | 0, _, _ => none
  | fuel + 1, cs, acc =>
    match parseValue fuel cs with
    | none => none
    | some (v, rest) =>
      match skipWs rest with
      | ',' :: rest2 => parseArrItems fuel (skipWs rest2) (acc ++ [v])
      | ']' :: rest2 => some (Json.arr (acc ++ [v]), rest2)
      | _ => none

end

/-- Model of the Python standard library function json.loads: parse
one JSON document and require the remainder to be whitespace only
(json.loads raises an Extra data error otherwise). -/
def json_loads (s : String) : Option Json :=
  match parseValue (4 * s.length + 16) s.toList with
  | none => none
  | some (v, rest) =>
    match skipWs rest with
    | [] => some v
    | _ => none

/-! ## Model of base64.b64decode (standard alphabet, default arguments) -/

/-- The standard base64 alphabet used by base64.b64decode with its
default arguments (this is the alphabet the source uses on JWT
payloads).  The URL-safe characters minus and underscore are NOT in
this alphabet. -/
def b64val (c : Char) : Option Nat :=
  if 'A' ≤ c ∧ c ≤ 'Z' then some (c.toNat - 'A'.toNat)
  else if 'a' ≤ c ∧ c ≤ 'z' then some (c.toNat - 'a'.toNat + 26)
  else if '0' ≤ c ∧ c ≤ '9' then some (c.toNat - '0'.toNat + 52)
  else if c = '+' then some 62
  else if c = '/' then some 63
  else none

/-- The URL-safe base64 alphabet as accepted by base64.urlsafe_b64decode,
which translates minus and underscore to plus and slash before
decoding (so the standard characters remain accepted as well). -/
def b64valUrl (c : Char) : Option Nat :=
  if c = '-' then some 62 else if c = '_' then some 63 else b64val c

/-- The CPython binascii.a2b_base64 state machine in non-strict mode
(the mode base64.b64decode uses by default): characters outside the
alphabet are discarded; an equals sign with two or three data
characters pending completes the input; at the end of input a pending
partial quad is an error (Incorrect padding, or the
one-more-than-a-multiple-of-four error).  Arguments: remaining
characters, quad position, pending bits, padding count, output
accumulator (reversed). -/
def a2bBase64 (val : Char → Option Nat) :
    List Char → Nat → Nat → Nat → List Nat → Option (List Nat)
  | [], quadPos, _, _, acc =>
    if quadPos = 0 then some acc.reverse else none
  | c :: rest, quadPos, leftchar, pads, acc =>
    if c = '=' then
      if 2 ≤ quadPos ∧ 4 ≤ quadPos + (pads + 1) then some acc.reverse
      else a2bBase64 val rest quadPos leftchar
        (if 2 ≤ quadPos then pads + 1 else pads) acc
    else
      match val c with
      | none => a2bBase64 val rest quadPos leftchar pads acc
      | some v =>
        match quadPos with
        | 0 => a2bBase64 val rest 1 v 0 acc
        | 1 => a2bBase64 val rest 2 (v % 16) 0 ((leftchar * 4 + v / 16) :: acc)
        | 2 => a2bBase64 val rest 3 (v % 4) 0 ((leftchar * 16 + v / 4) :: acc)
        | _ => a2bBase64 val rest 0 0 0 ((leftchar * 64 + v) :: acc)

/-- base64.b64decode applied to a string: the string is first encoded
as ASCII (non-ASCII characters raise), then decoded with the standard
alphabet in non-strict mode. -/
def b64decodePy (s : String) : Option (List Nat) :=
  if s.toList.any (fun c => 127 < c.toNat) then none
  else a2bBase64 b64val s.toList 0 0 0 []

/-- base64.urlsafe_b64decode applied to a string, same shape with the
URL-safe alphabet.  The source never calls this; it is the decoder the
specification describes for JWT payloads. -/
def b64decodeUrlsafe (s : String) : Option (List Nat) :=
  if s.toList.any (fun c => 127 < c.toNat) then none
  else a2bBase64 b64valUrl s.toList 0 0 0 []

/-! ## Model of bytes.decode with the utf-8 codec (strict) -/

/-- Strict UTF-8 decoding of a byte sequence: continuation ranges
follow the table of RFC 3629, so overlong forms, surrogates and
code points above U+10FFFF are rejected, as the Python strict utf-8
codec rejects them. -/
def utf8Decode : List Nat → Option (List Char)
  | [] => some []
  | b :: rest =>
    if b < 0x80 then
      (utf8Decode rest).map (fun cs => Char.ofNat b :: cs)
    else if b < 0xc2 then none
    else if b ≤ 0xdf then
      match rest with
      | c1 :: rest2 =>
        if 0x80 ≤ c1 ∧ c1 ≤ 0xbf then
          (utf8Decode rest2).map (fun cs =>
            Char.ofNat ((b - 0xc0) * 64 + (c1 - 0x80)) :: cs)
        else none
      | [] => none
    else if b ≤ 0xef then
      match rest with
      | c1 :: c2 :: rest3 =>
        if (if b = 0xe0 then 0xa0 else 0x80) ≤ c1 ∧
            c1 ≤ (if b = 0xed then 0x9f else 0xbf) ∧
            0x80 ≤ c2 ∧ c2 ≤ 0xbf then
          (utf8Decode rest3).map (fun cs =>
            Char.ofNat ((b - 0xe0) * 4096 + (c1 - 0x80) * 64 + (c2 - 0x80)) :: cs)
        else none
      | _ => none
    else if b ≤ 0xf4 then
      match rest with
      | c1 :: c2 :: c3 :: rest4 =>
        if (if b = 0xf0 then 0x90 else 0x80) ≤ c1 ∧
            c1 ≤ (if b = 0xf4 then 0x8f else 0xbf) ∧
            0x80 ≤ c2 ∧ c2 ≤ 0xbf ∧ 0x80 ≤ c3 ∧ c3 ≤ 0xbf then
          (utf8Decode rest4).map (fun cs =>
            Char.ofNat ((b - 0xf0) * 262144 + (c1 - 0x80) * 4096 +
              (c2 - 0x80) * 64 + (c3 - 0x80)) :: cs)
        else none
      | _ => none
    else none

/-! ## Embedding of check_token_expiry
(03_blogpost_deploy_mcp/blogpost_invoke_mcp_tools_userCred.py, lines 95-135) -/

/-- Helper for `splitDots`: accumulate the current segment (reversed)
while walking the characters. -/
def splitDotsAux : List Char → List Char → List String
  | [], acc => [String.mk acc.reverse]
  | c :: rest, acc =>
    if c = '.' then String.mk acc.reverse :: splitDotsAux rest []
    else splitDotsAux rest (c :: acc)

/-- The Python str.split with a dot separator: segments between dots,
with empty segments preserved (the empty string yields one empty
segment). -/
def splitDots (s : String) : List String :=
  splitDotsAux s.toList []

/-- The padding step of check_token_expiry: if the segment length is
not a multiple of four, append equals signs up to the next multiple
of four. -/
def padBase64 (payload : String) : String :=
  let padding := payload.length % 4
  if padding ≠ 0 then payload ++ String.mk (List.replicate (4 - padding) '=')
  else payload

/-- Numeric reading of a JSON value under Python arithmetic: numbers
are themselves, booleans coerce to zero and one (bool is an int
subclass), everything else is not a number.  NaN and the infinities
are left out because every use below guards them away first. -/
def pyNum? : Json → Option ℚ
  | Json.num q => some q
  | Json.bool b => some (if b then 1 else 0)
  | _ => none

/-- Lower bound of the datetime.fromtimestamp domain (year 1, UTC). -/
def tsMin : ℚ := -62135596800

/-- Upper bound of the datetime.fromtimestamp domain (year 9999, UTC). -/
def tsMax : ℚ := 253402300799

/-- Whether datetime.fromtimestamp accepts a JSON value: it must read
as a number (TypeError otherwise) and lie in the representable range
(OverflowError or ValueError otherwise); NaN and the infinities also
raise. -/
def fromtimestampOK (v : Json) : Bool :=
  match pyNum? v with
  | some q => tsMin ≤ q ∧ q ≤ tsMax
  | none => false

/-- The Python dict get with a default, for a dict built by json.loads
from a list of key-value pairs: the last binding of a duplicated key
wins. -/
def objGetDefault (kvs : List (String × Json)) (k : String) (d : Json) : Json :=
  match kvs.reverse.find? (fun p => p.1 = k) with
  | some p => p.2
  | none => d

/-- Python dict key lookup without a default (d[k] raising KeyError
when absent). -/
def objGet? (kvs : List (String × Json)) (k : String) : Option Json :=
  (kvs.reverse.find? (fun p => p.1 = k)).map (fun p => p.2)

/-- Lines 98-113 of check_token_expiry: split the token at dots,
require exactly three segments, pad the middle segment, decode it as
base64 with the standard alphabet, decode the bytes as utf-8 and
parse the text as JSON.  none collects both the early return on a
wrong segment count and every exception on the way (the caller maps
all of them to the assume-valid result). -/
def tokenPayloadJson? (bearer_token : String) : Option Json :=
  let parts := splitDots bearer_token
  if parts.length ≠ 3 then none
  else
    let payload := padBase64 (parts.getD 1 "")
    match b64decodePy payload with
    | none => none
    | some decoded_bytes =>
      match utf8Decode decoded_bytes with
      | none => none
      | some chars => json_loads (String.mk chars)

/-- Embedding of check_token_expiry.  The function returns true when
the token is treated as still valid and false when it is treated as
expired; every exception raised along the way is caught and turns
into true (the assume-valid branch), as is the early return on a
wrong segment count.  The current time, which the source reads from
datetime.now().timestamp(), is a parameter.  The exception sources in
order: base64, utf-8 and JSON failures raise inside
`tokenPayloadJson?`; a non-dict payload raises AttributeError at the
.get call; the datetime.fromtimestamp print calls on lines 120-122
raise on a non-numeric or out-of-range iat, exp or current time; a
non-numeric exp at the comparison is subsumed by the fromtimestamp
guard on exp. -/
def check_token_expiry (bearer_token : String) (current_time : ℚ) : Bool :=
  match tokenPayloadJson? bearer_token with
  | none => true
  | some (Json.obj kvs) =>
    let exp := objGetDefault kvs "exp" (Json.num 0)
    let iat := objGetDefault kvs "iat" (Json.num 0)
    if fromtimestampOK iat ∧ fromtimestampOK exp ∧
        tsMin ≤ current_time ∧ current_time ≤ tsMax then
      match pyNum? exp with
      | some e => if e < current_time then false else true
      | none => true
    else true
  | some _ => true

/-! ## Embedding of the pre-flight token check of the 03 client
(03_blogpost_deploy_mcp/blogpost_invoke_mcp_tools_userCred.py, main,
lines 174-193) -/

/-- The token-refresh pre-flight of the one-shot 03 client: fetch a
token (none models both a raised failure and the explicit None
return of get_cognito_bearer_token); exit if missing; check expiry
once; if the check reports expired, fetch once more and exit if that
fails.  The returned pair is the token carried into the connection
attempt (none standing for sys.exit(1)) and the number of token
fetches performed. -/
def main_preflight (tok1 tok2 : Option String) (now : ℚ) :
    Option String × Nat :=
  match tok1 with
  | none => (none, 1)
  | some t =>
    if check_token_expiry t now then (some t, 1)
    else
      match tok2 with
      | none => (none, 2)
      | some t2 => (some t2, 2)

/-! ## Embedding of 04_blogpost_single_agent_mcp/blogpost_single_agent_mcp.py -/

/-- Network and session actions the 04 module performs, in program
order.  `mcpStart` is the MCPClient start call, which opens the
streamable HTTP transport and performs the MCP handshake (the
connect-plus-handshake step). -/
inductive Ev where
  | ssmGet (name : String) : Ev
  | discoveryGet : Ev
  | tokenPost : Ev
  | mcpStart : Ev
  | listToolsCall : Ev
  | agentRun : Ev
deriving DecidableEq, Repr

/-- An HTTP response as the requests library exposes it to this code:
a status code and a body text from which .json() parses. -/
structure HttpResponse where
  status_code : Int
  text : String

/-- response.json(): parse the body as JSON. -/
def responseJson? (r : HttpResponse) : Option Json :=
  json_loads r.text

/-- Prefix test on character lists. -/
def listStartsWith : List Char → List Char → Bool
  | [], _ => true
  | _ :: _, [] => false
  | a :: as, b :: bs => a = b && listStartsWith as bs

/-- Substring test on character lists. -/
def listContainsSub (needle hay : List Char) : Bool :=
  match hay with
  | [] => needle.isEmpty
  | _ :: rest => listStartsWith needle hay || listContainsSub needle rest

/-- The Python membership test `needle in v` for a decoded JSON value:
key lookup on dicts, element equality on lists (a string equals only
an equal string), substring on strings; on the remaining types the
test raises TypeError, modelled as none. -/
def pyIn (needle : String) : Json → Option Bool
  | Json.obj kvs => some (kvs.any (fun p => p.1 = needle))
  | Json.arr xs => some (xs.any (fun x =>
      match x with
      | Json.str s => s = needle
      | _ => false))
  | Json.str s => some (listContainsSub needle.toList s.toList)
  | _ => none

/-- Embedding of get_bearer_token (lines 19-72).  The two collaborator
responses are parameters: the discovery document fetch and the token
endpoint POST.  The result is the value the function returns or the
message of the exception it raises, together with the trace of
network actions; the token POST appears in the trace exactly when the
code reaches the requests.post call.  Error messages follow the
source f-strings; messages for exceptions raised inside library calls
(JSON decoding, a non-string endpoint handed to requests.post)
abbreviate the library text. -/
def get_bearer_token (discoveryResp tokenResp : HttpResponse) :
    Except String Json × List Ev :=
  if discoveryResp.status_code ≠ 200 then
    (Except.error ("Failed to fetch discovery data: " ++
      toString discoveryResp.status_code), [Ev.discoveryGet])
  else
    match responseJson? discoveryResp with
    | none => (Except.error "Expecting value: discovery body is not JSON",
        [Ev.discoveryGet])
    | some d =>
      match d with
      | Json.obj kvs =>
        match objGet? kvs "token_endpoint" with
        | none => (Except.error "KeyError: token_endpoint", [Ev.discoveryGet])
        | some te =>
          match te with
          | Json.str _ =>
            if tokenResp.status_code = 200 then
              match responseJson? tokenResp with
              | none => (Except.error "Expecting value: token body is not JSON",
                  [Ev.discoveryGet, Ev.tokenPost])
              | some td =>
                match pyIn "access_token" td with
                | some true =>
                  match td with
                  | Json.obj tkvs =>
                    match objGet? tkvs "access_token" with
                    | some tok => (Except.ok tok, [Ev.discoveryGet, Ev.tokenPost])
                    | none => (Except.error "KeyError: access_token",
                        [Ev.discoveryGet, Ev.tokenPost])
                  | _ => (Except.error "TypeError: indexing with a string",
                      [Ev.discoveryGet, Ev.tokenPost])
                | some false => (Except.error "No access token in response",
                    [Ev.discoveryGet, Ev.tokenPost])
                | none => (Except.error "TypeError: argument is not iterable",
                    [Ev.discoveryGet, Ev.tokenPost])
            else
              (Except.error ("Token request failed with status " ++
                toString tokenResp.status_code), [Ev.discoveryGet, Ev.tokenPost])
          | _ => (Except.error "InvalidURL: token endpoint is not a string",
              [Ev.discoveryGet])
      | _ => (Except.error "TypeError: discovery body is not an object",
          [Ev.discoveryGet])

/-- The agent value create_agent builds and the entrypoint caches: it
closes over the bearer token carried in the MCP transport headers and
the tools listed at creation time. -/
structure AgentHandle where
  bearer_token : Json
  tools : List String

/-- Outcomes of the external collaborators create_agent touches, in
the order the source consults them: the three SSM parameter lookups
(keyed by parameter name), the discovery and token responses consumed
by get_bearer_token, the MCPClient start call and the synchronous
tool listing.  Model and Agent construction are local object
constructions with no external effect and are not modelled as
failure points. -/
structure CreateEnv where
  ssm : String → Except String String
  discoveryResp : HttpResponse
  tokenResp : HttpResponse
  startResult : Except String Unit
  toolsResult : Except String (List String)

/-- SSM parameter names the 04 module reads (lines 104-106). -/
def ssmClientIdName : String :=
  "/app/blogpost/mcp/blogpost_mcp_simple_calculator/machine_client_id"

/-- Second SSM parameter name. -/
def ssmSecretName : String :=
  "/app/blogpost/mcp/blogpost_mcp_simple_calculator/cognito_secret"

/-- Third SSM parameter name. -/
def ssmDiscoveryName : String :=
  "/app/blogpost/mcp/blogpost_mcp_simple_calculator/cognito_discovery_url"

/-- Embedding of create_agent (lines 95-164): three SSM lookups, the
token flow, MCPClient construction (no network action), the start
call that opens the transport and performs the MCP handshake, and the
tool listing; any raised exception propagates (the except block logs
and re-raises).  Returns the outcome together with the action
trace. -/
def create_agent (env : CreateEnv) : Except String AgentHandle × List Ev :=
  match env.ssm ssmClientIdName with
  | Except.error e => (Except.error e, [Ev.ssmGet ssmClientIdName])
  | Except.ok _ =>
    match env.ssm ssmSecretName with
    | Except.error e => (Except.error e,
        [Ev.ssmGet ssmClientIdName, Ev.ssmGet ssmSecretName])
    | Except.ok _ =>
      match env.ssm ssmDiscoveryName with
      | Except.error e => (Except.error e,
          [Ev.ssmGet ssmClientIdName, Ev.ssmGet ssmSecretName,
           Ev.ssmGet ssmDiscoveryName])
      | Except.ok _ =>
        let ssmEvs := [Ev.ssmGet ssmClientIdName, Ev.ssmGet ssmSecretName,
           Ev.ssmGet ssmDiscoveryName]
        match get_bearer_token env.discoveryResp env.tokenResp with
        | (Except.error e, tokenEvs) => (Except.error e, ssmEvs ++ tokenEvs)
        | (Except.ok tok, tokenEvs) =>
          match env.startResult with
          | Except.error e => (Except.error e,
              ssmEvs ++ tokenEvs ++ [Ev.mcpStart])
          | Except.ok _ =>
            match env.toolsResult with
            | Except.error e => (Except.error e,
                ssmEvs ++ tokenEvs ++ [Ev.mcpStart, Ev.listToolsCall])
            | Except.ok tools =>
              (Except.ok ⟨tok, tools⟩,
                ssmEvs ++ tokenEvs ++ [Ev.mcpStart, Ev.listToolsCall])

/-- Python truthiness of a decoded JSON value, as used by
`payload.get("input") or payload.get("prompt")` and the
`if not user_input` test. -/
def pyTruthy : Json → Bool
  | Json.null => false
  | Json.bool b => b
  | Json.num q => q ≠ 0
  | Json.nan => true
  | Json.inf _ => true
  | Json.str s => s ≠ ""
  | Json.arr xs => ¬xs.isEmpty
  | Json.obj kvs => ¬kvs.isEmpty

/-- The user input the entrypoint derives from a dict payload (lines
176-178): the input field if truthy, else the prompt field, combined
with the Python or operator. -/
def entryUserInput (kvs : List (String × Json)) : Json :=
  let first := objGetDefault kvs "input" Json.null
  if pyTruthy first then first else objGetDefault kvs "prompt" Json.null

/-- The module-global state of the 04 entrypoint: the cached agent
(None before the first successful creation). -/
structure EntryState where
  agent : Option AgentHandle

/-- Collaborator outcomes for one entrypoint invocation: the
create_agent environment (consulted only when the cached agent is
None) and the outcome of running the cached or fresh agent on the
input, covering the agent call and the response field extraction. -/
structure RunEnv where
  createEnv : CreateEnv
  runResult : Except String String

/-- Embedding of the entrypoint single_agent_mcp_bedrock (lines
166-212 of the machine-credential module; the user-credential module
user_authentication/04_single_agent_mcp/blogpost_single_agent_mcp_userCred.py
contains a textually identical entrypoint at lines 175-221).  Takes
the current global state, the payload and the collaborator outcomes;
returns the new global state, the returned string and the action
trace.  A non-dict payload raises AttributeError at payload.get,
which the outer except turns into the Entrypoint failed message. -/
def single_agent_mcp_bedrock (st : EntryState) (payload : Json)
    (env : RunEnv) : EntryState × String × List Ev :=
  match payload with
  | Json.obj kvs =>
    if ¬ pyTruthy (entryUserInput kvs) then
      (st, "Error: No input provided in payload", [])
    else
      match st.agent with
      | none =>
        match create_agent env.createEnv with
        | (Except.error e, evs) =>
          (⟨none⟩, "Failed to create agent: " ++ e, evs)
        | (Except.ok h, evs) =>
          match env.runResult with
          | Except.ok r => (⟨some h⟩, r, evs ++ [Ev.agentRun])
          | Except.error e =>
            (⟨some h⟩, "Agent execution failed: " ++ e, evs ++ [Ev.agentRun])
      | some h =>
        match env.runResult with
        | Except.ok r => (⟨some h⟩, r, [Ev.agentRun])
        | Except.error e =>
          (⟨some h⟩, "Agent execution failed: " ++ e, [Ev.agentRun])
  | _ => (st, "Entrypoint failed: AttributeError: payload has no attribute get", [])

/-! ## Interleaving model for concurrent first invocations

The entrypoint guards session creation only by reading the module
global `agent` and comparing it with None; there is no lock.  Two
concurrent invocations are modelled as interleaved atomic steps at
the granularity of that read and of the creation-and-assignment
(taking the whole create_agent call plus the assignment as one atomic
step is conservative: it only removes interleavings, so every
behaviour of this coarse model is a behaviour of the finer one).  A
schedule is the list of which invoker moves at each step. -/

/-- Position of one invoker inside the creation section: about to
read the global; observed None and about to create and assign; or
finished, holding the session it will use for its tool calls. -/
inductive ThreadPC where
  | atRead : ThreadPC
  | creating : ThreadPC
  | finished (sessionId : Nat) : ThreadPC
deriving DecidableEq, Repr

/-- Shared state of the race: the module global and the two invoker
positions, plus the number of connect-plus-handshake sequences
executed so far. -/
structure RaceState where
  globalAgent : Option Nat
  pc0 : ThreadPC
  pc1 : ThreadPC
  creations : Nat
deriving DecidableEq, Repr

/-- Session identifier created by each invoker. -/
def sessionIdOf (t : Bool) : Nat := if t then 2 else 1

/-- One atomic step of invoker t: the None check, or the
create-and-assign; a finished invoker does nothing. -/
def raceStep (s : RaceState) (t : Bool) : RaceState :=
  let pc := if t then s.pc1 else s.pc0
  let setPc := fun (s2 : RaceState) (pc2 : ThreadPC) =>
    if t then { s2 with pc1 := pc2 } else { s2 with pc0 := pc2 }
  match pc with
  | ThreadPC.atRead =>
    match s.globalAgent with
    | none => setPc s ThreadPC.creating
    | some sid => setPc s (ThreadPC.finished sid)
  | ThreadPC.creating =>
    setPc { s with globalAgent := some (sessionIdOf t),
                   creations := s.creations + 1 }
      (ThreadPC.finished (sessionIdOf t))
  | ThreadPC.finished _ => s

/-- Initial state: no session, both invokers about to check. -/
def raceInit : RaceState :=
  ⟨none, ThreadPC.atRead, ThreadPC.atRead, 0⟩

/-- Run a schedule from the initial state. -/
def runSched (sched : List Bool) : RaceState :=
  sched.foldl raceStep raceInit

/-- Whether every finished invoker holds the same session (vacuously
true while one is still running). -/
def sessionsShared (s : RaceState) : Prop :=
  match s.pc0, s.pc1 with
  | ThreadPC.finished a, ThreadPC.finished b => a = b
  | _, _ => True

instance (s : RaceState) : Decidable (sessionsShared s) := by
  unfold sessionsShared
  exact match s.pc0, s.pc1 with
  | ThreadPC.finished _, ThreadPC.finished _ => decEq _ _
  | ThreadPC.atRead, _ => Decidable.isTrue trivial
  | ThreadPC.creating, _ => Decidable.isTrue trivial
  | ThreadPC.finished _, ThreadPC.atRead => Decidable.isTrue trivial
  | ThreadPC.finished _, ThreadPC.creating => Decidable.isTrue trivial

/-! ## Claim-support definitions -/

/-- The exp value the good path of check_token_expiry derives: the
token decodes to a JSON object, the iat and exp values (with their
defaults of 0) pass the datetime.fromtimestamp calls, and exp reads
as a number.  With a some result and an in-range current time the
comparison on line 124 decides the outcome. -/
def tokenExp? (bearer_token : String) : Option ℚ :=
  match tokenPayloadJson? bearer_token with
  | some (Json.obj kvs) =>
    let exp := objGetDefault kvs "exp" (Json.num 0)
    let iat := objGetDefault kvs "iat" (Json.num 0)
    if fromtimestampOK iat ∧ fromtimestampOK exp then pyNum? exp else none
  | _ => none

/-- Modelled from the words of the specification, for comparison with
the source function (claim C8): identical to `check_token_expiry`
except that the padded middle segment is decoded as base64url with
the URL-safe alphabet, the encoding the specification names for JWT
payloads.  The source instead calls base64.b64decode, which uses the
standard alphabet. -/
def check_token_expiry_spec (bearer_token : String) (current_time : ℚ) : Bool :=
  let parts := splitDots bearer_token
  if parts.length ≠ 3 then true
  else
    let payload := padBase64 (parts.getD 1 "")
    match b64decodeUrlsafe payload with
    | none => true
    | some decoded_bytes =>
      match utf8Decode decoded_bytes with
      | none => true
      | some chars =>
        match json_loads (String.mk chars) with
        | none => true
        | some (Json.obj kvs) =>
          let exp := objGetDefault kvs "exp" (Json.num 0)
          let iat := objGetDefault kvs "iat" (Json.num 0)
          if fromtimestampOK iat ∧ fromtimestampOK exp ∧
              tsMin ≤ current_time ∧ current_time ≤ tsMax then
            match pyNum? exp with
            | some e => if e < current_time then false else true
            | none => true
          else true
        | some _ => true

/-- A cached agent for concrete scenarios; it closes over a token
whose exp claim is 100, long expired at current time 1000. -/
def sampleHandle : AgentHandle := ⟨Json.str "h.eyJleHAiOjEwMH0.s", []⟩

/-- A concrete payload dict with a prompt field. -/
def samplePayload : List (String × Json) := [("prompt", Json.str "hi")]

/-- A create environment that is never consulted in scenarios with a
cached agent (its lookups fail if touched). -/
def stubCreateEnv : CreateEnv :=
  ⟨fun _ => Except.error "unused", ⟨0, ""⟩, ⟨0, ""⟩,
   Except.error "unused", Except.error "unused"⟩

/-- Whether an exception message names an authentication-class HTTP
status, as the claim words it (401 or 403). -/
def authClassErrorMsg (e : String) : Bool :=
  listContainsSub "401".toList e.toList || listContainsSub "403".toList e.toList

/-- A create environment whose first credential lookup fails. -/
def failingCreateEnv : CreateEnv :=
  ⟨fun _ => Except.error "boom", ⟨0, ""⟩, ⟨0, ""⟩,
   Except.error "unused", Except.error "unused"⟩

/-- A create environment where every collaborator succeeds. -/
def goodCreateEnv : CreateEnv :=
  ⟨fun _ => Except.ok "value", ⟨200, "\x7b\"token_endpoint\":\"u\"\x7d"⟩,
   ⟨200, "\x7b\"access_token\":\"tok\"\x7d"⟩, Except.ok (), Except.ok ["add_numbers"]⟩

/-- Weight of an invoker that has not yet finished the creation
section. -/
def pendingOf : ThreadPC → Nat
  | ThreadPC.finished _ => 0
  | _ => 1

/-! ## Claims about the expiry check -/

/-- C4: for every malformed token (not exactly three dot-separated
segments, or a middle segment that does not decode through base64,
utf-8 and JSON), check_token_expiry raises nothing (it is total here)
and reports the token as not expired, returning true. -/
theorem C4_malformed_token_fails_open (token : String) (now : ℚ)
    (h : (splitDots token).length ≠ 3 ∨ tokenPayloadJson? token = none) :
    check_token_expiry token now = true := by
  have hnone : tokenPayloadJson? token = none := by
    rcases h with h | h
    · unfold tokenPayloadJson?
      simp [h]
    · exact h
  unfold check_token_expiry
  rw [hnone]

/-- Witness for C4 at two concrete malformed tokens: one with a wrong
segment count, one whose middle segment is not valid JSON after
decoding. -/
theorem C4_malformed_token_fails_open_witness :
    check_token_expiry "nodots" 1000 = true ∧
    check_token_expiry "a.b.c" 1000 = true :=
  ⟨C4_malformed_token_fails_open "nodots" 1000 (Or.inl (by decide)),
   C4_malformed_token_fails_open "a.b.c" 1000 (Or.inr (by rfl))⟩

/-- C3, counterexample: the claim says every token whose exp claim is
less than or equal to the current time is reported expired.  At the
boundary exp = current time the source comparison `exp < current_time`
is false, so the token is reported as still valid: the token below
carries exp = 100 and check_token_expiry returns true at current time
100. -/
theorem C3_counterexample :
    ¬ ∀ (token : String) (now e : ℚ), tokenExp? token = some e → e ≤ now →
      check_token_expiry token now = false := by
  intro hall
  have := hall "h.eyJleHAiOjEwMH0.s" 100 100 (by decide) le_rfl
  exact absurd this (by decide)

/-- C3, amended: for a token whose good path derives an exp value, and
an in-range current time, the check reports expired exactly when exp
is strictly less than the current time; at exp = current time the
token is reported not expired. -/
theorem C3_expiry_threshold (token : String) (now e : ℚ)
    (h : tokenExp? token = some e) (h1 : tsMin ≤ now) (h2 : now ≤ tsMax) :
    check_token_expiry token now = if e < now then false else true := by
  unfold tokenExp? at h
  unfold check_token_expiry
  cases htp : tokenPayloadJson? token with
  | none => rw [htp] at h; exact absurd h (by simp)
  | some j =>
    rw [htp] at h
    cases j with
    | obj kvs =>
      simp only at h ⊢
      split at h
      case isTrue hg =>
        rw [if_pos ⟨hg.1, hg.2, h1, h2⟩, h]
      case isFalse hg =>
        exact absurd h (by simp)
    | null => exact absurd h (by simp)
    | bool b => exact absurd h (by simp)
    | num q => exact absurd h (by simp)
    | nan => exact absurd h (by simp)
    | inf b => exact absurd h (by simp)
    | str s => exact absurd h (by simp)
    | arr xs => exact absurd h (by simp)

/-- Witness for C3 as amended, at the concrete token with exp = 100:
not expired at current time 50, expired at current time 1000. -/
theorem C3_expiry_threshold_witness :
    check_token_expiry "h.eyJleHAiOjEwMH0.s" 50 = true ∧
    check_token_expiry "h.eyJleHAiOjEwMH0.s" 1000 = false := by
  constructor
  · have := C3_expiry_threshold "h.eyJleHAiOjEwMH0.s" 50 100 (by decide)
      (by decide) (by decide)
    rwa [if_neg (by norm_num)] at this
  · have := C3_expiry_threshold "h.eyJleHAiOjEwMH0.s" 1000 100 (by decide)
      (by decide) (by decide)
    rwa [if_pos (by norm_num)] at this

/-- C9, counterexample: the claim says every well-formed token whose
payload object lacks exp is reported expired.  When the iat value is
not a number, the datetime.fromtimestamp print on line 120 raises
before the comparison is reached, and the handler reports the token
as valid: the token below decodes to the object with iat = "x" and no
exp, and check_token_expiry returns true, not false. -/
theorem C9_counterexample :
    ¬ ∀ (token : String) (kvs : List (String × Json)) (now : ℚ),
        tokenPayloadJson? token = some (Json.obj kvs) →
        objGet? kvs "exp" = none → 0 < now →
        check_token_expiry token now = false := by
  intro hall
  have := hall "h.eyJpYXQiOiJ4In0.s" [("iat", Json.str "x")] 1000
    (by rfl) (by rfl) (by norm_num)
  exact absurd this (by decide)

/-- C9, amended: for a well-formed token whose payload object lacks an
exp claim and whose iat value (default 0) is accepted by
datetime.fromtimestamp, the check uses the default exp of 0 and
reports the token expired (returns false) at any positive in-range
current time; a non-numeric or out-of-range iat instead raises and
falls into the fail-open branch. -/
theorem C9_missing_exp_expired (token : String) (kvs : List (String × Json))
    (now : ℚ) (htp : tokenPayloadJson? token = some (Json.obj kvs))
    (hexp : objGet? kvs "exp" = none)
    (hiat : fromtimestampOK (objGetDefault kvs "iat" (Json.num 0)) = true)
    (h0 : 0 < now) (hmax : now ≤ tsMax) :
    check_token_expiry token now = false := by
  have hdef : objGetDefault kvs "exp" (Json.num 0) = Json.num 0 := by
    unfold objGetDefault
    unfold objGet? at hexp
    cases hfind : (kvs.reverse.find? (fun p => p.1 = "exp")) with
    | none => rfl
    | some p => rw [hfind] at hexp; exact absurd hexp (by simp)
  have hmin : tsMin ≤ now := le_trans (by norm_num [tsMin]) h0.le
  unfold check_token_expiry
  rw [htp]
  simp only [hdef]
  rw [if_pos ⟨hiat, by norm_num [fromtimestampOK, pyNum?, tsMin, tsMax], hmin, hmax⟩]
  simp only [pyNum?]
  rw [if_pos h0]

/-- Witness for C9 as amended, at a concrete token whose payload is
the object with iat = 5 and no exp. -/
theorem C9_missing_exp_expired_witness :
    check_token_expiry "h.eyJpYXQiOjV9.s" 1000 = false :=
  C9_missing_exp_expired "h.eyJpYXQiOjV9.s" [("iat", Json.num 5)] 1000
    (by rfl) (by rfl) (by decide) (by norm_num) (by norm_num [tsMax])

/-- C8: the source decodes the JWT payload with base64.b64decode and
the standard alphabet, not as base64url as a JWT payload is encoded.
At the token below, whose middle segment is well-formed base64url
spelling the object with exp = 1 (its underscore encodes the bytes of
"???"), the source discards the underscore, fails the padding check,
and falls into the fail-open branch, reporting the long-expired token
as valid; the specification text (check_token_expiry_spec, decoding
base64url) reports it expired. -/
theorem C8_b64_alphabet_divergence :
    check_token_expiry "h.eyJleHAiOjEsIngiOiI_Pz8ifQ.s" 1000 = true ∧
    check_token_expiry_spec "h.eyJleHAiOjEsIngiOiI_Pz8ifQ.s" 1000 = false ∧
    b64decodePy (padBase64 "eyJleHAiOjEsIngiOiI_Pz8ifQ") = none ∧
    (b64decodeUrlsafe (padBase64 "eyJleHAiOjEsIngiOiI_Pz8ifQ")).isSome = true := by
  refine ⟨by decide, by decide, by decide, by decide⟩

/-! ## Claims about the client-credentials token flow -/

/-- C6: when the discovery fetch returns a non-200 status, or the
discovery document is an object without a token_endpoint field,
get_bearer_token raises before the token endpoint is ever POSTed: the
result is an error and the action trace carries no token POST. -/
theorem C6_discovery_failure_no_token_post (dresp tresp : HttpResponse)
    (h : dresp.status_code ≠ 200 ∨
      ∃ kvs, responseJson? dresp = some (Json.obj kvs) ∧
        objGet? kvs "token_endpoint" = none) :
    (∃ e, (get_bearer_token dresp tresp).1 = Except.error e) ∧
    Ev.tokenPost ∉ (get_bearer_token dresp tresp).2 := by
  by_cases hs : dresp.status_code = 200
  · rcases h with h | ⟨kvs, hj, hte⟩
    · exact absurd hs h
    · unfold get_bearer_token
      rw [if_neg (by simp [hs])]
      simp only [hj, hte]
      exact ⟨⟨_, rfl⟩, by simp⟩
  · unfold get_bearer_token
    rw [if_pos hs]
    exact ⟨⟨_, rfl⟩, by simp⟩

/-- Witness for C6: a 404 discovery response, and a 200 discovery
response whose JSON object lacks token_endpoint; in both cases the
flow fails with no token POST in the trace. -/
theorem C6_discovery_failure_no_token_post_witness :
    ((∃ e, (get_bearer_token ⟨404, ""⟩ ⟨200, ""⟩).1 = Except.error e) ∧
      Ev.tokenPost ∉ (get_bearer_token ⟨404, ""⟩ ⟨200, ""⟩).2) ∧
    ((∃ e, (get_bearer_token ⟨200, "\x7b\x7d"⟩ ⟨200, ""⟩).1 = Except.error e) ∧
      Ev.tokenPost ∉ (get_bearer_token ⟨200, "\x7b\x7d"⟩ ⟨200, ""⟩).2) :=
  ⟨C6_discovery_failure_no_token_post ⟨404, ""⟩ ⟨200, ""⟩ (Or.inl (by decide)),
   C6_discovery_failure_no_token_post ⟨200, "\x7b\x7d"⟩ ⟨200, ""⟩
     (Or.inr ⟨[], by rfl, by rfl⟩)⟩

/-- C7: once the flow reaches the token endpoint, a 200 response whose
JSON body does not contain an access_token field makes
get_bearer_token raise instead of returning a token, and a non-200
response makes it raise with a message naming that status code. -/
theorem C7_token_endpoint_errors (dresp tresp : HttpResponse)
    (kvs : List (String × Json)) (u : String)
    (hd : dresp.status_code = 200)
    (hj : responseJson? dresp = some (Json.obj kvs))
    (he : objGet? kvs "token_endpoint" = some (Json.str u)) :
    (∀ td, tresp.status_code = 200 → responseJson? tresp = some td →
      pyIn "access_token" td ≠ some true →
      ∃ e, (get_bearer_token dresp tresp).1 = Except.error e) ∧
    (tresp.status_code ≠ 200 →
      (get_bearer_token dresp tresp).1 =
        Except.error ("Token request failed with status " ++
          toString tresp.status_code)) := by
  constructor
  · intro td ht htj hin
    unfold get_bearer_token
    rw [if_neg (by simp [hd])]
    simp only [hj, he]
    rw [if_pos ht]
    simp only [htj]
    cases hp : pyIn "access_token" td with
    | none => exact ⟨_, rfl⟩
    | some b =>
      cases b with
      | true => exact absurd hp hin
      | false => exact ⟨_, rfl⟩
  · intro ht
    unfold get_bearer_token
    rw [if_neg (by simp [hd])]
    simp only [hj, he]
    rw [if_neg ht]

/-- Witness for C7: a discovery document naming a token endpoint; a
200 token response with an empty JSON object body fails, and a 403
token response fails naming the status. -/
theorem C7_token_endpoint_errors_witness :
    (∃ e, (get_bearer_token ⟨200, "\x7b\"token_endpoint\":\"u\"\x7d"⟩ ⟨200, "\x7b\x7d"⟩).1 =
      Except.error e) ∧
    (get_bearer_token ⟨200, "\x7b\"token_endpoint\":\"u\"\x7d"⟩ ⟨403, ""⟩).1 =
      Except.error "Token request failed with status 403" :=
  ⟨(C7_token_endpoint_errors ⟨200, "\x7b\"token_endpoint\":\"u\"\x7d"⟩ ⟨200, "\x7b\x7d"⟩
      [("token_endpoint", Json.str "u")] "u" (by decide) (by rfl) (by rfl)).1
      (Json.obj []) (by decide) (by rfl) (by simp [pyIn]),
   (C7_token_endpoint_errors ⟨200, "\x7b\"token_endpoint\":\"u\"\x7d"⟩ ⟨403, ""⟩
      [("token_endpoint", Json.str "u")] "u" (by decide) (by rfl) (by rfl)).2
      (by decide)⟩

/-! ## Claims about the entrypoint session lifecycle -/


/-- C1, counterexample: the claim says an authentication-class tool
call failure on an established session triggers one fresh token and
one retry.  The entrypoint has no such logic: with a cached agent and
a run that fails naming status 403, the trace carries no token POST
and exactly one run attempt, so the universal form of the claim is
false. -/
theorem C1_counterexample :
    ¬ ∀ (st : EntryState) (h : AgentHandle) (payload : Json) (env : RunEnv)
        (e : String),
      st.agent = some h → env.runResult = Except.error e →
      authClassErrorMsg e = true →
      Ev.tokenPost ∈ (single_agent_mcp_bedrock st payload env).2.2 ∧
      (single_agent_mcp_bedrock st payload env).2.2.count Ev.agentRun = 2 := by
  intro hall
  rcases hall ⟨some sampleHandle⟩ sampleHandle (Json.obj samplePayload)
    ⟨stubCreateEnv, Except.error "tool call failed with status 403"⟩
    "tool call failed with status 403" rfl rfl (by decide) with ⟨hmem, -⟩
  revert hmem
  decide

/-- C1, amended: when a tool call on an established session raises
(authentication-class or not), no re-authentication and no retry
happen: the entrypoint returns the Agent-execution-failed message
carrying the exception text (which names the HTTP status when the
exception does), keeps the cached agent, and the trace shows a single
run attempt with no token fetch and no new connection. -/
theorem C1_error_surfaced_no_retry (kvs : List (String × Json))
    (h : AgentHandle) (env : RunEnv) (e : String)
    (hin : pyTruthy (entryUserInput kvs) = true)
    (hrun : env.runResult = Except.error e) :
    single_agent_mcp_bedrock ⟨some h⟩ (Json.obj kvs) env =
      (⟨some h⟩, "Agent execution failed: " ++ e, [Ev.agentRun]) := by
  unfold single_agent_mcp_bedrock
  simp only [hin, hrun]
  simp

/-- Witness for C1 as amended at the concrete cached-agent state with
a 403 run failure. -/
theorem C1_error_surfaced_no_retry_witness :
    single_agent_mcp_bedrock ⟨some sampleHandle⟩ (Json.obj samplePayload)
      ⟨stubCreateEnv, Except.error "403 Forbidden"⟩ =
    (⟨some sampleHandle⟩, "Agent execution failed: 403 Forbidden",
      [Ev.agentRun]) :=
  C1_error_surfaced_no_retry samplePayload sampleHandle
    ⟨stubCreateEnv, Except.error "403 Forbidden"⟩ "403 Forbidden"
    (by decide) rfl

/-- C2, counterexample: the claim says every invoke after the first
checks expiry and, on an expired token, fetches a fresh token and
reconnects.  The entrypoint reuses the cached agent unconditionally:
with a cached agent whose token has exp = 100 at current time 1000
(expired per check_token_expiry), the trace carries neither a token
POST nor a connection start, so the universal form of the claim is
false. -/
theorem C2_counterexample :
    ¬ ∀ (st : EntryState) (h : AgentHandle) (tok : String) (payload : Json)
        (env : RunEnv) (now : ℚ),
      st.agent = some h → h.bearer_token = Json.str tok →
      check_token_expiry tok now = false →
      Ev.tokenPost ∈ (single_agent_mcp_bedrock st payload env).2.2 ∧
      Ev.mcpStart ∈ (single_agent_mcp_bedrock st payload env).2.2 := by
  intro hall
  rcases hall ⟨some sampleHandle⟩ sampleHandle "h.eyJleHAiOjEwMH0.s"
    (Json.obj samplePayload) ⟨stubCreateEnv, Except.ok "done"⟩ 1000
    rfl rfl (by decide) with ⟨hmem, -⟩
  revert hmem
  decide

/-- C2, amended: in the 04 agent modules no expiry check happens after
the first invocation; the cached agent and the token inside it are
reused unconditionally, with no token fetch and no new connection in
the trace.  Only the one-shot 03 client checks expiry, once, before
its single connection: a valid check keeps the first token with one
fetch, an expired check triggers exactly one further fetch. -/
theorem C2_no_expiry_check_after_first (kvs : List (String × Json))
    (h : AgentHandle) (env : RunEnv)
    (hin : pyTruthy (entryUserInput kvs) = true) :
    ((single_agent_mcp_bedrock ⟨some h⟩ (Json.obj kvs) env).1 = ⟨some h⟩ ∧
      (single_agent_mcp_bedrock ⟨some h⟩ (Json.obj kvs) env).2.2 =
        [Ev.agentRun]) ∧
    ∀ (t : String) (t2 : Option String) (now : ℚ),
      (check_token_expiry t now = true →
        main_preflight (some t) t2 now = (some t, 1)) ∧
      (check_token_expiry t now = false →
        (main_preflight (some t) t2 now).2 = 2) := by
  constructor
  · unfold single_agent_mcp_bedrock
    simp only [hin]
    cases hr : env.runResult <;> simp
  · intro t t2 now
    constructor
    · intro hv
      simp [main_preflight, hv]
    · intro hx
      cases t2 <;> simp [main_preflight, hx]

/-- Witness for C2 as amended: the cached sample agent is reused with
a bare run trace, and the 03 pre-flight at the expired sample token
performs a second fetch. -/
theorem C2_no_expiry_check_after_first_witness :
    ((single_agent_mcp_bedrock ⟨some sampleHandle⟩ (Json.obj samplePayload)
        ⟨stubCreateEnv, Except.ok "done"⟩).1 = ⟨some sampleHandle⟩ ∧
      (single_agent_mcp_bedrock ⟨some sampleHandle⟩ (Json.obj samplePayload)
        ⟨stubCreateEnv, Except.ok "done"⟩).2.2 = [Ev.agentRun]) ∧
    (main_preflight (some "h.eyJleHAiOjEwMH0.s") (some "t2") 1000).2 = 2 :=
  ⟨(C2_no_expiry_check_after_first samplePayload sampleHandle
      ⟨stubCreateEnv, Except.ok "done"⟩ (by decide)).1,
   ((C2_no_expiry_check_after_first samplePayload sampleHandle
      ⟨stubCreateEnv, Except.ok "done"⟩ (by decide)).2
      "h.eyJleHAiOjEwMH0.s" (some "t2") 1000).2 (by decide)⟩

/-- When the client-credentials flow succeeds, its trace is exactly
the discovery fetch followed by the token POST. -/
theorem get_bearer_token_ok_trace (dresp tresp : HttpResponse) (tok : Json)
    (hc : (get_bearer_token dresp tresp).1 = Except.ok tok) :
    (get_bearer_token dresp tresp).2 = [Ev.discoveryGet, Ev.tokenPost] := by
  revert hc
  unfold get_bearer_token
  repeat' split
  all_goals simp

/-- When create_agent succeeds, its trace is exactly the three
credential lookups, the discovery fetch, the token POST, the
connection start and the tool listing, in source order. -/
theorem create_agent_ok_trace (env : CreateEnv) (h : AgentHandle)
    (hc : (create_agent env).1 = Except.ok h) :
    (create_agent env).2 = [Ev.ssmGet ssmClientIdName, Ev.ssmGet ssmSecretName,
      Ev.ssmGet ssmDiscoveryName, Ev.discoveryGet, Ev.tokenPost, Ev.mcpStart,
      Ev.listToolsCall] := by
  unfold create_agent at hc ⊢
  cases h1 : env.ssm ssmClientIdName with
  | error e => simp_all
  | ok v1 =>
    cases h2 : env.ssm ssmSecretName with
    | error e => simp_all
    | ok v2 =>
      cases h3 : env.ssm ssmDiscoveryName with
      | error e => simp_all
      | ok v3 =>
        simp only [h1, h2, h3] at hc ⊢
        rcases hgb : get_bearer_token env.discoveryResp env.tokenResp
          with ⟨r, tokenEvs⟩
        simp only [hgb] at hc ⊢
        cases r with
        | error e => simp_all
        | ok tokv =>
          have htr : tokenEvs = [Ev.discoveryGet, Ev.tokenPost] := by
            have := get_bearer_token_ok_trace env.discoveryResp env.tokenResp
              tokv (by rw [hgb])
            rwa [hgb] at this
          cases h4 : env.startResult with
          | error e => simp_all
          | ok u =>
            cases h5 : env.toolsResult with
            | error e => simp_all
            | ok tools => simp_all

/-- C10: a failed agent creation is never cached.  When create_agent
raises, the entrypoint leaves the global at None and returns the
Failed-to-create-agent error string; and because the global is still
None, any later invocation runs create_agent again from scratch,
whose successful trace repeats the credential lookups, the token
acquisition and the connect-plus-handshake before the run. -/
theorem C10_failed_creation_not_cached (env : RunEnv)
    (kvs : List (String × Json)) (e : String)
    (hin : pyTruthy (entryUserInput kvs) = true)
    (hc : (create_agent env.createEnv).1 = Except.error e) :
    single_agent_mcp_bedrock ⟨none⟩ (Json.obj kvs) env =
      (⟨none⟩, "Failed to create agent: " ++ e, (create_agent env.createEnv).2) ∧
    ∀ (env2 : RunEnv) (h2 : AgentHandle),
      (create_agent env2.createEnv).1 = Except.ok h2 →
      (single_agent_mcp_bedrock ⟨none⟩ (Json.obj kvs) env2).2.2 =
        [Ev.ssmGet ssmClientIdName, Ev.ssmGet ssmSecretName,
         Ev.ssmGet ssmDiscoveryName, Ev.discoveryGet, Ev.tokenPost,
         Ev.mcpStart, Ev.listToolsCall, Ev.agentRun] := by
  constructor
  · unfold single_agent_mcp_bedrock
    simp only [hin]
    rcases hca : create_agent env.createEnv with ⟨r, evs⟩
    rw [hca] at hc
    simp only at hc
    subst hc
    simp
  · intro env2 h2 hok
    have htr := create_agent_ok_trace env2.createEnv h2 hok
    unfold single_agent_mcp_bedrock
    simp only [hin]
    rcases hca : create_agent env2.createEnv with ⟨r, evs⟩
    rw [hca] at hok htr
    simp only at hok htr
    subst hok
    subst htr
    cases hr : env2.runResult <;> simp


/-- Witness for C10: with the failing environment the state stays
uncached and the error string is returned; with the good environment
a later invocation repeats the whole creation sequence. -/
theorem C10_failed_creation_not_cached_witness :
    single_agent_mcp_bedrock ⟨none⟩ (Json.obj samplePayload)
      ⟨failingCreateEnv, Except.ok "done"⟩ =
      (⟨none⟩, "Failed to create agent: boom",
        [Ev.ssmGet ssmClientIdName]) ∧
    (single_agent_mcp_bedrock ⟨none⟩ (Json.obj samplePayload)
      ⟨goodCreateEnv, Except.ok "done"⟩).2.2 =
      [Ev.ssmGet ssmClientIdName, Ev.ssmGet ssmSecretName,
       Ev.ssmGet ssmDiscoveryName, Ev.discoveryGet, Ev.tokenPost,
       Ev.mcpStart, Ev.listToolsCall, Ev.agentRun] := by
  have main := C10_failed_creation_not_cached
    ⟨failingCreateEnv, Except.ok "done"⟩ samplePayload "boom"
    (by decide) (by rfl)
  exact ⟨main.1, main.2 ⟨goodCreateEnv, Except.ok "done"⟩
    ⟨Json.str "tok", ["add_numbers"]⟩ (by rfl)⟩

/-! ## Claims about concurrent first invocations -/

/-- C5, counterexample: the claim says concurrent first invocations
execute at most one connect-plus-handshake under mutual exclusion and
share the result.  The creation section is guarded only by the
unsynchronized None check: in the interleaving where both invokers
pass the check before either assigns, each executes its own
connect-plus-handshake (two creations) and they finish holding
different sessions, so the universal form of the claim is false. -/
theorem C5_counterexample :
    ¬ ∀ sched : List Bool,
      (runSched sched).creations ≤ 1 ∧ sessionsShared (runSched sched) := by
  intro hall
  rcases hall [false, true, false, true] with ⟨hcount, -⟩
  revert hcount
  decide


/-- One step never increases the creation count plus the pending
weights: a creation consumes one pending invoker. -/
theorem raceStep_measure (s : RaceState) (t : Bool) :
    (raceStep s t).creations + pendingOf (raceStep s t).pc0 +
      pendingOf (raceStep s t).pc1 ≤
    s.creations + pendingOf s.pc0 + pendingOf s.pc1 := by
  rcases s with ⟨g, p0, p1, c⟩
  cases t <;> cases p0 <;> cases p1 <;> cases g <;>
    simp [raceStep, pendingOf]

/-- C5, amended: session creation is not mutually excluded.  A
serialized pair of invocations executes exactly one
connect-plus-handshake and shares the session; the interleaving that
passes both None checks first executes two, and the invokers finish
with different sessions (the later assignment overwrites the
earlier); in every schedule each invoker runs at most one creation,
so the count never exceeds the number of invokers. -/
theorem C5_unsynchronized_creation :
    ((runSched [false, false, true]).creations = 1 ∧
      sessionsShared (runSched [false, false, true])) ∧
    ((runSched [false, true, false, true]).creations = 2 ∧
      ¬ sessionsShared (runSched [false, true, false, true])) ∧
    ∀ sched : List Bool, (runSched sched).creations ≤ 2 := by
  refine ⟨⟨by decide, by decide⟩, ⟨by decide, by decide⟩, ?_⟩
  intro sched
  have key : ∀ (l : List Bool) (s : RaceState),
      (l.foldl raceStep s).creations +
        pendingOf (l.foldl raceStep s).pc0 +
        pendingOf (l.foldl raceStep s).pc1 ≤
      s.creations + pendingOf s.pc0 + pendingOf s.pc1 := by
    intro l
    induction l with
    | nil => intro s; simp
    | cons t rest ih =>
      intro s
      calc (List.foldl raceStep s (t :: rest)).creations +
            pendingOf (List.foldl raceStep s (t :: rest)).pc0 +
            pendingOf (List.foldl raceStep s (t :: rest)).pc1
          = (rest.foldl raceStep (raceStep s t)).creations +
            pendingOf (rest.foldl raceStep (raceStep s t)).pc0 +
            pendingOf (rest.foldl raceStep (raceStep s t)).pc1 := by
            simp [List.foldl]
        _ ≤ (raceStep s t).creations + pendingOf (raceStep s t).pc0 +
            pendingOf (raceStep s t).pc1 := ih (raceStep s t)
        _ ≤ s.creations + pendingOf s.pc0 + pendingOf s.pc1 :=
            raceStep_measure s t
  have h := key sched raceInit
  unfold runSched
  simp only [raceInit] at h ⊢
  rw [show pendingOf ThreadPC.atRead = 1 from rfl] at h
  omega

/-- Witness for C5 as amended: the bound instantiated at the racing
schedule, where the creation count is exactly the two-invoker
maximum. -/
theorem C5_unsynchronized_creation_witness :
    (runSched [false, true, false, true]).creations ≤ 2 ∧
    (runSched [false, true, false, true]).creations = 2 :=
  ⟨C5_unsynchronized_creation.2.2 [false, true, false, true],
   C5_unsynchronized_creation.2.1.1⟩
